import Mathlib

/-!
Verification of the Video_Analyzer service layer (src/main.py, src/api_keys.py).

Python strings are embedded as `String` (for keys and messages) or `List Char`
(where character-level processing from the source must be modelled: splitting,
stripping).  Python floats are embedded as `ℚ`.  Python dicts with optional
entries are embedded as structures of `Option` fields (`dict.get(k)` returning
`None` for a missing key becomes `Option.getD` / `Option.map`).  A raised
`HTTPException(status_code, detail)` is embedded as `Except.error` carrying an
`HTTPError` value.  The external collaborators (PIL image parsing inside
`decode_image`, and `analyzer.process_frame`) are parameters of the embedded
handlers, since their internals are outside this repository.
-/

/-- Python `s.split(",")` on a string viewed as a list of characters:
splits at every comma; `"".split(",") = [""]`. -/
def pySplitComma : List Char → List (List Char)
  | [] => [[]]
  | c :: rest =>
    if c = ',' then [] :: pySplitComma rest
    else
      match pySplitComma rest with
      | h :: t => (c :: h) :: t
      | [] => [[c]]

/-- Python `s.strip()`: removes leading and trailing whitespace. -/
def pyStrip (l : List Char) : List Char :=
  ((l.dropWhile Char.isWhitespace).reverse.dropWhile Char.isWhitespace).reverse

/-- Embeds `api_keys.py` line 28: parse the comma-separated fallback string,
strip each entry, and drop entries that are empty after stripping
(`[key.strip() for key in fallback_keys.split(",") if key.strip()]`). -/
def parse_fallback_keys (s : String) : List String :=
  ((pySplitComma s.data).map (fun l => (pyStrip l).asString)).filter (fun k => k ≠ "")

/-- State of `ProductionAPIKeyManager` after `__init__` (api_keys.py 21-36). -/
structure KeyManager where
  primary_key : Option String
  fallback_keys : List String
  valid_keys : List String
deriving DecidableEq

/-- Embeds `ProductionAPIKeyManager.__init__` (api_keys.py 21-36).
`primaryEnv` is `os.environ.get("VIDEO_ANALYZER_API_KEY")` and `fallbackEnv`
is `os.environ.get("FALLBACK_API_KEYS")`; an unset variable is `none`.
`if self.primary_key:` is Python truthiness on an optional string: the
primary key enters `valid_keys` (verbatim, unstripped) iff it is a non-empty
string. -/
def mkKeyManager (primaryEnv fallbackEnv : Option String) : KeyManager :=
  let primary_key := primaryEnv
  let fallback_keys := parse_fallback_keys (fallbackEnv.getD "")
  let valid_keys :=
    (match primary_key with
     | some p => if p = "" then [] else [p]
     | none => []) ++ fallback_keys
  ⟨primary_key, fallback_keys, valid_keys⟩

/-- Embeds `ProductionAPIKeyManager.validate_key` (api_keys.py 38-61).
`if not api_key: return False` covers both `None` and the empty string, so
the candidate is embedded as `Option String`; otherwise the result is
`api_key in self.valid_keys`. -/
def validate_key (m : KeyManager) (api_key : Option String) : Bool :=
  match api_key with
  | none => false
  | some k => if k = "" then false else m.valid_keys.contains k

/-- An HTTP-style error: `HTTPException(status_code, detail)`. -/
structure HTTPError where
  status : Nat
  detail : String
deriving DecidableEq

/-- Embeds `verify_api_key` (main.py 51-69).  The header value is `none`
when absent; `if not api_key` covers `None` and `""`. -/
def verify_api_key (m : KeyManager) (api_key : Option String) : Except HTTPError String :=
  match api_key with
  | none => .error ⟨401, "API key required. Please provide X-API-Key header."⟩
  | some k =>
    if k = "" then .error ⟨401, "API key required. Please provide X-API-Key header."⟩
    else if validate_key m (some k) then .ok k
    else .error ⟨401, "Invalid or expired API key."⟩

/-- The standard base64 alphabet, index `n` holding the character of sextet
value `n` (RFC 4648, the table used by Python `base64.b64encode`). -/
def b64chars : List Char :=
  "ABCDEFGHIJKLMNOPQRSTUVWXYZabcdefghijklmnopqrstuvwxyz0123456789+/".data

/-- Character of a sextet value (0-63). -/
def sextetToChar (n : Nat) : Char := b64chars.getD n '='

/-- Index of a character in a list of characters, leftmost match. -/
def indexInList : List Char → Char → Option Nat
  | [], _ => none
  | a :: rest, c => if a = c then some 0 else (indexInList rest c).map (· + 1)

/-- Sextet value of a base64 alphabet character, `none` off the alphabet. -/
def charToSextet (c : Char) : Option Nat := indexInList b64chars c

/-- Modelled from the spec: standard base64 encoding of a byte sequence
(Python `base64.b64encode`, an external library the repository calls):
each 3-byte group becomes 4 alphabet characters; a trailing 2-byte group
becomes 3 characters plus one padding `=`; a trailing single byte becomes
2 characters plus `==`. -/
def b64encodeBytes : List Nat → List Char
  | a :: b :: c :: rest =>
    sextetToChar (a / 4) :: sextetToChar ((a % 4) * 16 + b / 16) ::
    sextetToChar ((b % 16) * 4 + c / 64) :: sextetToChar (c % 64) :: b64encodeBytes rest
  | [a, b] =>
    [sextetToChar (a / 4), sextetToChar ((a % 4) * 16 + b / 16), sextetToChar ((b % 16) * 4), '=']
  | [a] => [sextetToChar (a / 4), sextetToChar ((a % 4) * 16), '=', '=']
  | [] => []

/-- Modelled from the spec: standard base64 decoding (Python
`base64.b64decode`, an external library the repository calls): consumes
4-character groups, honouring `=` padding in the final group; fails on
off-alphabet characters or a malformed group. -/
def b64decodeChars : List Char → Option (List Nat)
  | [] => some []
  | c1 :: c2 :: c3 :: c4 :: rest =>
    match charToSextet c1, charToSextet c2 with
    | some s1, some s2 =>
      if c3 = '=' then
        if c4 = '=' ∧ rest = [] then some [s1 * 4 + s2 / 16] else none
      else
        match charToSextet c3 with
        | some s3 =>
          if c4 = '=' then
            if rest = [] then some [s1 * 4 + s2 / 16, (s2 % 16) * 16 + s3 / 4] else none
          else
            match charToSextet c4 with
            | some s4 =>
              (b64decodeChars rest).map
                (fun t => (s1 * 4 + s2 / 16) :: ((s2 % 16) * 16 + s3 / 4) :: ((s3 % 4) * 64 + s4) :: t)
            | none => none
        | none => none
    | _, _ => none
  | _ => none

/-- Embeds main.py 115-116: `if ',' in base64_string: base64_string =
base64_string.split(',')[1]` — with a comma present, the split has at least
two fields and field 1 is the segment between the first and the second
comma. -/
def stripDataUrlComma (l : List Char) : List Char :=
  if ',' ∈ l then (pySplitComma l).getD 1 [] else l

/-- Stated from the claim for comparison with the source behaviour: the
entire remainder of the string after its first comma. -/
def remainderAfterFirstComma (l : List Char) : List Char :=
  (l.dropWhile (fun c => c != ',')).drop 1

/-- Embeds `decode_image` (main.py 94-108).  The PIL/OpenCV parsing and
normalization pipeline is the external parameter `d`: on success it yields
the decoded frame, on failure the exception message.  `decode_image` wraps
a failure as `HTTPException(400, "Invalid image format: " + str(e))`. -/
def decode_image {F : Type} (d : List Nat → Except String F) (image_data : List Nat) :
    Except HTTPError F :=
  match d image_data with
  | .ok f => .ok f
  | .error msg => .error ⟨400, "Invalid image format: " ++ msg⟩

/-- Embeds `decode_base64_image` (main.py 111-122).  The `except Exception`
there catches everything, including the `HTTPException(400, "Invalid image
format: ...")` raised by `decode_image`, and re-wraps it as
`HTTPException(400, "Invalid base64 image: " + str(e))`; `str` of an
`HTTPException` is `"{status_code}: {detail}"`.  The message produced by
the base64 library on failure is abstracted as a fixed string. -/
def decode_base64_image {F : Type} (d : List Nat → Except String F) (base64_string : List Char) :
    Except HTTPError F :=
  match b64decodeChars (stripDataUrlComma base64_string) with
  | none => .error ⟨400, "Invalid base64 image: invalid base64-encoded string"⟩
  | some image_data =>
    match decode_image d image_data with
    | .ok f => .ok f
    | .error e => .error ⟨400, "Invalid base64 image: " ++ toString e.status ++ ": " ++ e.detail⟩

/-- The `metrics` mapping inside an analyzer result: four named optional
floats (`metrics.get(name)` is `none` when the key is missing). -/
structure Metrics where
  attention_percent : Option ℚ
  head_movement_normalized : Option ℚ
  shoulder_tilt_deg : Option ℚ
  hand_activity_normalized : Option ℚ
deriving DecidableEq

/-- A metrics dict with every key missing (the `{}` default). -/
def emptyMetrics : Metrics := ⟨none, none, none, none⟩

/-- The `detection_results` mapping inside an analyzer result. -/
structure DetectionResults where
  hands_detected_count : Option Nat
deriving DecidableEq

/-- Result dictionary returned by `analyzer.process_frame`: every field may
be absent (the handlers read each with `.get` and a default). -/
structure AnalysisResult where
  frame_count : Option Nat
  frame_confidence : Option ℚ
  metrics : Option Metrics
  detection_results : Option DetectionResults
  timestamp : Option ℚ
  warnings : Option (List String)
deriving DecidableEq

/-- Response model `FrameAnalysisResponse` (main.py 72-84). -/
structure FrameAnalysisResponse where
  frame : Nat
  frame_confidence : ℚ
  confidence_status : String
  attention : Option ℚ
  head_movement : Option ℚ
  shoulder_tilt : Option ℚ
  hand_activity : Option ℚ
  hands_detected : Nat
  timestamp : ℚ
  success : Bool
  warnings : List String
deriving DecidableEq

/-- Python `round(x)` on a rational: round half to even. -/
def pyRound (q : ℚ) : ℤ :=
  let f := ⌊q⌋
  if q - f < 1 / 2 then f
  else if 1 / 2 < q - f then f + 1
  else if f % 2 = 0 then f else f + 1

/-- Python `round(x, n)`: round to `n` decimal places, ties to even. -/
def roundTo (q : ℚ) (n : Nat) : ℚ := (pyRound (q * 10 ^ n) : ℚ) / 10 ^ n

/-- Embeds the response-building block shared verbatim by the two handlers
(main.py 180-203 and 234-257): defaults for missing fields, the 0.3
confidence threshold, per-field rounding, `None` metrics staying `None`.
`now` is the `time.time()` value used when `timestamp` is absent. -/
def buildResponse (now : ℚ) (result : AnalysisResult) : FrameAnalysisResponse :=
  let metrics := result.metrics.getD emptyMetrics
  let frame_confidence := result.frame_confidence.getD 0
  let confidence_status := if frame_confidence ≥ 3 / 10 then "PASS" else "FAIL"
  let hands_detected := ((result.detection_results.getD ⟨none⟩).hands_detected_count).getD 0
  { frame := result.frame_count.getD 0
    frame_confidence := roundTo frame_confidence 3
    confidence_status := confidence_status
    attention := metrics.attention_percent.map (fun v => roundTo v 1)
    head_movement := metrics.head_movement_normalized.map (fun v => roundTo v 4)
    shoulder_tilt := metrics.shoulder_tilt_deg.map (fun v => roundTo v 1)
    hand_activity := metrics.hand_activity_normalized.map (fun v => roundTo v 4)
    hands_detected := hands_detected
    timestamp := result.timestamp.getD now
    success := true
    warnings := result.warnings.getD [] }

/-- Embeds the endpoint `POST /analyze/frame` (main.py 159-208).  The
`verify_api_key` dependency runs before the body.  The body is one `try`
block whose bare `except Exception` catches every exception — including an
`HTTPException` raised by `decode_image` — and re-raises it as
`HTTPException(500, "Error processing frame: " + str(e))`; `str` of an
`HTTPException` is `"{status_code}: {detail}"`. -/
def analyze_frame {F : Type} (m : KeyManager) (header : Option String)
    (file_bytes : List Nat) (d : List Nat → Except String F)
    (process_frame : F → AnalysisResult) (now : ℚ) :
    Except HTTPError FrameAnalysisResponse :=
  match verify_api_key m header with
  | .error e => .error e
  | .ok _ =>
    let body : Except HTTPError FrameAnalysisResponse := do
      let frame ← decode_image d file_bytes
      let result := process_frame frame
      pure (buildResponse now result)
    match body with
    | .ok r => .ok r
    | .error e => .error ⟨500, "Error processing frame: " ++ toString e.status ++ ": " ++ e.detail⟩

/-- Embeds the endpoint `POST /analyze/base64` (main.py 211-264).
`request_image` is `request.get('image')` (`none` when the JSON body has no
such field); `if not base64_string` also treats `""` as missing.  Unlike
`analyze_frame`, this handler has `except HTTPException: raise` before its
`except Exception`, so an `HTTPException` from the body passes through
unchanged (no other exception kind exists in this model). -/
def analyze_base64_frame {F : Type} (m : KeyManager) (header : Option String)
    (request_image : Option String) (d : List Nat → Except String F)
    (process_frame : F → AnalysisResult) (now : ℚ) :
    Except HTTPError FrameAnalysisResponse :=
  match verify_api_key m header with
  | .error e => .error e
  | .ok _ =>
    let body : Except HTTPError FrameAnalysisResponse := do
      let s ← (match request_image with
        | none => Except.error (⟨400, "Missing \x27image\x27 field in request"⟩ : HTTPError)
        | some s =>
          if s = "" then Except.error (⟨400, "Missing \x27image\x27 field in request"⟩ : HTTPError)
          else pure s)
      let frame ← decode_base64_image d s.data
      pure (buildResponse now (process_frame frame))
    match body with
    | .ok r => .ok r
    | .error e => .error e

/-- Decoding the character of a sextet value recovers the sextet. -/
theorem charToSextet_sextetToChar (n : Nat) (h : n < 64) :
    charToSextet (sextetToChar n) = some n := by
  have H : ∀ m : Fin 64, charToSextet (sextetToChar m.val) = some m.val := by decide
  exact H ⟨n, h⟩

/-- Alphabet characters are never the padding character. -/
theorem sextetToChar_ne_pad (n : Nat) (h : n < 64) : sextetToChar n ≠ '=' := by
  have H : ∀ m : Fin 64, sextetToChar m.val ≠ '=' := by decide
  exact H ⟨n, h⟩

/-- Alphabet characters are never a comma. -/
theorem sextetToChar_ne_comma (n : Nat) (h : n < 64) : sextetToChar n ≠ ',' := by
  have H : ∀ m : Fin 64, sextetToChar m.val ≠ ',' := by decide
  exact H ⟨n, h⟩

/-- Base64 decoding inverts base64 encoding on byte sequences. -/
theorem b64_roundtrip : ∀ bs : List Nat, (∀ b ∈ bs, b < 256) →
    b64decodeChars (b64encodeBytes bs) = some bs
  | [] => fun _ => rfl
  | [a] => fun h => by
    have ha : a < 256 := h a (by simp)
    have e1 := charToSextet_sextetToChar (a / 4) (by omega)
    have e2 := charToSextet_sextetToChar ((a % 4) * 16) (by omega)
    simp only [b64encodeBytes, b64decodeChars, e1, e2]
    simp only [List.cons.injEq, Option.some.injEq, List.nil_eq, and_true, reduceIte]
    simp
    omega
  | [a, b] => fun h => by
    have ha : a < 256 := h a (by simp)
    have hb : b < 256 := h b (by simp)
    have e1 := charToSextet_sextetToChar (a / 4) (by omega)
    have e2 := charToSextet_sextetToChar ((a % 4) * 16 + b / 16) (by omega)
    have e3 := charToSextet_sextetToChar ((b % 16) * 4) (by omega)
    have p3 := sextetToChar_ne_pad ((b % 16) * 4) (by omega)
    simp only [b64encodeBytes, b64decodeChars, e1, e2, e3, p3]
    simp
    omega
  | a :: b :: c :: d :: rest => fun h => by
    have ha : a < 256 := h a (by simp)
    have hb : b < 256 := h b (by simp)
    have hc : c < 256 := h c (by simp)
    have ih := b64_roundtrip (d :: rest) (fun x hx => h x (List.mem_cons_of_mem a (List.mem_cons_of_mem b (List.mem_cons_of_mem c hx))))
    have e1 := charToSextet_sextetToChar (a / 4) (by omega)
    have e2 := charToSextet_sextetToChar ((a % 4) * 16 + b / 16) (by omega)
    have e3 := charToSextet_sextetToChar ((b % 16) * 4 + c / 64) (by omega)
    have e4 := charToSextet_sextetToChar (c % 64) (by omega)
    have p3 := sextetToChar_ne_pad ((b % 16) * 4 + c / 64) (by omega)
    have p4 := sextetToChar_ne_pad (c % 64) (by omega)
    simp only [b64encodeBytes, b64decodeChars, e1, e2, e3, e4, p3, p4, ih]
    simp
    omega
  | [a, b, c] => fun h => by
    have ha : a < 256 := h a (by simp)
    have hb : b < 256 := h b (by simp)
    have hc : c < 256 := h c (by simp)
    have e1 := charToSextet_sextetToChar (a / 4) (by omega)
    have e2 := charToSextet_sextetToChar ((a % 4) * 16 + b / 16) (by omega)
    have e3 := charToSextet_sextetToChar ((b % 16) * 4 + c / 64) (by omega)
    have e4 := charToSextet_sextetToChar (c % 64) (by omega)
    have p3 := sextetToChar_ne_pad ((b % 16) * 4 + c / 64) (by omega)
    have p4 := sextetToChar_ne_pad (c % 64) (by omega)
    simp only [b64encodeBytes, b64decodeChars, e1, e2, e3, e4, p3, p4]
    simp
    omega

/-- Base64 encodings never contain a comma. -/
theorem b64encode_no_comma : ∀ bs : List Nat, (∀ b ∈ bs, b < 256) →
    ',' ∉ b64encodeBytes bs
  | [] => fun _ hmem => by simp [b64encodeBytes] at hmem
  | [a] => fun h hmem => by
    have ha : a < 256 := h a (by simp)
    have n1 := sextetToChar_ne_comma (a / 4) (by omega)
    have n2 := sextetToChar_ne_comma ((a % 4) * 16) (by omega)
    simp only [b64encodeBytes, List.mem_cons, List.not_mem_nil, or_false] at hmem
    rcases hmem with e | e | e | e
    · exact n1 e.symm
    · exact n2 e.symm
    · exact absurd e (by decide)
    · exact absurd e (by decide)
  | [a, b] => fun h hmem => by
    have ha : a < 256 := h a (by simp)
    have hb : b < 256 := h b (by simp)
    have n1 := sextetToChar_ne_comma (a / 4) (by omega)
    have n2 := sextetToChar_ne_comma ((a % 4) * 16 + b / 16) (by omega)
    have n3 := sextetToChar_ne_comma ((b % 16) * 4) (by omega)
    simp only [b64encodeBytes, List.mem_cons, List.not_mem_nil, or_false] at hmem
    rcases hmem with e | e | e | e
    · exact n1 e.symm
    · exact n2 e.symm
    · exact n3 e.symm
    · exact absurd e (by decide)
  | a :: b :: c :: d :: rest => fun h hmem => by
    have ha : a < 256 := h a (by simp)
    have hb : b < 256 := h b (by simp)
    have hc : c < 256 := h c (by simp)
    have ih := b64encode_no_comma (d :: rest)
      (fun x hx => h x (List.mem_cons_of_mem a (List.mem_cons_of_mem b (List.mem_cons_of_mem c hx))))
    have n1 := sextetToChar_ne_comma (a / 4) (by omega)
    have n2 := sextetToChar_ne_comma ((a % 4) * 16 + b / 16) (by omega)
    have n3 := sextetToChar_ne_comma ((b % 16) * 4 + c / 64) (by omega)
    have n4 := sextetToChar_ne_comma (c % 64) (by omega)
    simp only [b64encodeBytes, List.mem_cons] at hmem
    rcases hmem with e | e | e | e | e
    · exact n1 e.symm
    · exact n2 e.symm
    · exact n3 e.symm
    · exact n4 e.symm
    · exact ih e
  | [a, b, c] => fun h hmem => by
    have ha : a < 256 := h a (by simp)
    have hb : b < 256 := h b (by simp)
    have hc : c < 256 := h c (by simp)
    have n1 := sextetToChar_ne_comma (a / 4) (by omega)
    have n2 := sextetToChar_ne_comma ((a % 4) * 16 + b / 16) (by omega)
    have n3 := sextetToChar_ne_comma ((b % 16) * 4 + c / 64) (by omega)
    have n4 := sextetToChar_ne_comma (c % 64) (by omega)
    simp only [b64encodeBytes, List.mem_cons, List.not_mem_nil, or_false] at hmem
    rcases hmem with e | e | e | e
    · exact n1 e.symm
    · exact n2 e.symm
    · exact n3 e.symm
    · exact n4 e.symm

/-- Splitting a comma-free string yields the single field holding it. -/
theorem pySplitComma_no_comma (l : List Char) (h : ',' ∉ l) : pySplitComma l = [l] := by
  induction l with
  | nil => rfl
  | cons a t ih =>
    have ha : a ≠ ',' := fun e => h (by simp [e])
    have ht : ',' ∉ t := fun m => h (List.mem_cons_of_mem _ m)
    simp [pySplitComma, if_neg ha, ih ht]

/-- Splitting at the first comma: the first field is the comma-free part
before it, and the remaining fields split the rest. -/
theorem pySplitComma_append (pre rest : List Char) (h : ',' ∉ pre) :
    pySplitComma (pre ++ ',' :: rest) = pre :: pySplitComma rest := by
  induction pre with
  | nil => simp [pySplitComma]
  | cons a t ih =>
    have ha : a ≠ ',' := fun e => h (by simp [e])
    have ht : ',' ∉ t := fun m => h (List.mem_cons_of_mem _ m)
    simp [pySplitComma, if_neg ha, ih ht]

/-- With two or more commas, `split(',')[1]` is the segment between the
first and the second comma. -/
theorem stripDataUrlComma_two_commas (pre mid post : List Char)
    (hp : ',' ∉ pre) (hm : ',' ∉ mid) :
    stripDataUrlComma (pre ++ ',' :: (mid ++ ',' :: post)) = mid := by
  have hmem : ',' ∈ pre ++ ',' :: (mid ++ ',' :: post) := by simp
  simp only [stripDataUrlComma, if_pos hmem, pySplitComma_append _ _ hp,
    pySplitComma_append _ _ hm]
  rfl

/-- With exactly one comma, `split(',')[1]` is the whole remainder. -/
theorem stripDataUrlComma_one_comma (pre mid : List Char)
    (hp : ',' ∉ pre) (hm : ',' ∉ mid) :
    stripDataUrlComma (pre ++ ',' :: mid) = mid := by
  have hmem : ',' ∈ pre ++ ',' :: mid := by simp
  simp only [stripDataUrlComma, if_pos hmem, pySplitComma_append _ _ hp,
    pySplitComma_no_comma _ hm]
  rfl

/-- When authentication succeeds and the file decodes, the file-upload
handler returns the built response of the analyzer result. -/
theorem analyze_frame_ok {F : Type} (m : KeyManager) (hdr : Option String)
    (bytes : List Nat) (d : List Nat → Except String F) (a : F → AnalysisResult)
    (now : ℚ) (k : String) (f : F)
    (hv : verify_api_key m hdr = .ok k) (hd : d bytes = .ok f) :
    analyze_frame m hdr bytes d a now = .ok (buildResponse now (a f)) := by
  simp [analyze_frame, hv, decode_image, hd]

/-- When authentication succeeds, the image field is present and non-empty,
and it decodes, the base64 handler returns the built response of the
analyzer result. -/
theorem analyze_base64_ok {F : Type} (m : KeyManager) (hdr : Option String)
    (s : String) (d : List Nat → Except String F) (a : F → AnalysisResult)
    (now : ℚ) (k : String) (f : F)
    (hv : verify_api_key m hdr = .ok k) (hs : s ≠ "")
    (hd : decode_base64_image d s.data = .ok f) :
    analyze_base64_frame m hdr (some s) d a now = .ok (buildResponse now (a f)) := by
  simp [analyze_base64_frame, hv, hs, hd]

/-- C4: `validate_key` is `false` on an absent or empty candidate whatever
the key set holds, and on a non-empty candidate it is `true` exactly when
the candidate equals the configured primary key or is one of the parsed
fallback keys (empty strings being excluded from the valid set). -/
theorem validate_key_membership :
    (∀ m : KeyManager, validate_key m none = false ∧ validate_key m (some "") = false)
  ∧ (∀ (pe fe : Option String) (c : String), c ≠ "" →
      (validate_key (mkKeyManager pe fe) (some c) = true ↔
        pe = some c ∨ c ∈ (mkKeyManager pe fe).fallback_keys)) := by
  constructor
  · intro m
    exact ⟨rfl, rfl⟩
  · intro pe fe c hc
    rcases pe with _ | p
    · simp [validate_key, mkKeyManager, hc]
    · by_cases hp : p = ""
      · subst hp
        simp [validate_key, mkKeyManager, hc, Ne.symm hc]
      · simp [validate_key, mkKeyManager, hc, hp]
        constructor
        · rintro (e | e)
          · exact Or.inl e.symm
          · exact Or.inr e
        · rintro (e | e)
          · exact Or.inl e.symm
          · exact Or.inr e

/-- C4 witness: concrete instances of both parts. -/
theorem validate_key_membership_witness :
    validate_key (mkKeyManager (some "abc123") (some "def456,ghi789")) (some "def456") = true ↔
      some "abc123" = some "def456" ∨
        "def456" ∈ (mkKeyManager (some "abc123") (some "def456,ghi789")).fallback_keys :=
  validate_key_membership.2 (some "abc123") (some "def456,ghi789") "def456" (by decide)

/-- C5: `verify_api_key` returns 401 with the fixed "API key required"
message when the header is absent or empty, 401 with the fixed "Invalid or
expired API key." message when present but rejected by `validate_key`, and
the key itself when accepted. -/
theorem verify_api_key_cases :
    ∀ (m : KeyManager) (hdr : Option String),
      ((hdr = none ∨ hdr = some "") →
        verify_api_key m hdr =
          .error ⟨401, "API key required. Please provide X-API-Key header."⟩)
    ∧ (∀ k, hdr = some k → k ≠ "" → validate_key m (some k) = false →
        verify_api_key m hdr = .error ⟨401, "Invalid or expired API key."⟩)
    ∧ (∀ k, hdr = some k → validate_key m (some k) = true →
        verify_api_key m hdr = .ok k) := by
  intro m hdr
  refine ⟨?_, ?_, ?_⟩
  · rintro (rfl | rfl)
    · rfl
    · rfl
  · rintro k rfl hk hval
    simp [verify_api_key, hk, hval]
  · rintro k rfl hval
    have hk : k ≠ "" := by
      intro e
      subst e
      simp [validate_key] at hval
    simp [verify_api_key, hk, hval]

/-- C5 witness: the scenario from the spec, primary `"abc123"`, fallbacks
`"def456,ghi789"`. -/
theorem verify_api_key_cases_witness :
    verify_api_key (mkKeyManager (some "abc123") (some "def456,ghi789")) (some "xyz") =
      .error ⟨401, "Invalid or expired API key."⟩ :=
  (verify_api_key_cases (mkKeyManager (some "abc123") (some "def456,ghi789"))
    (some "xyz")).2.1 "xyz" rfl (by decide) (by decide)

/-- C10: fallback keys enter the valid set stripped of surrounding
whitespace while the primary key is stored verbatim: with a primary key
and no fallbacks the valid set is exactly the primary string, a fallback
configured as `" k "` validates `"k"` and rejects `" k "`, and a primary
configured as `" p "` validates `" p "` and rejects `"p"`. -/
theorem fallback_trimmed_primary_verbatim :
    (∀ p : String, p ≠ "" → (mkKeyManager (some p) none).valid_keys = [p])
  ∧ validate_key (mkKeyManager none (some " k ")) (some "k") = true
  ∧ validate_key (mkKeyManager none (some " k ")) (some " k ") = false
  ∧ validate_key (mkKeyManager (some " p ") none) (some " p ") = true
  ∧ validate_key (mkKeyManager (some " p ") none) (some "p") = false := by
  refine ⟨?_, by decide, by decide, by decide, by decide⟩
  intro p hp
  simp only [mkKeyManager]
  rw [show parse_fallback_keys ((none : Option String).getD "") = [] from rfl]
  simp [hp]

/-- C10 witness: a concrete primary key stored verbatim. -/
theorem fallback_trimmed_primary_verbatim_witness :
    (mkKeyManager (some " q ") none).valid_keys = [" q "] :=
  fallback_trimmed_primary_verbatim.1 " q " (by decide)

/-- C7: an authenticated request to the base64 endpoint whose body has no
`image` field gets `400 "Missing 'image' field in request"`, and the
outcome does not depend on the decoder or the analyzer (neither is
invoked). -/
theorem missing_image_field_400 :
    ∀ (F F2 : Type) (m : KeyManager) (hdr : Option String)
      (d : List Nat → Except String F) (a : F → AnalysisResult)
      (d2 : List Nat → Except String F2) (a2 : F2 → AnalysisResult)
      (now now2 : ℚ) (k : String),
      verify_api_key m hdr = .ok k →
        analyze_base64_frame m hdr none d a now =
            .error ⟨400, "Missing \x27image\x27 field in request"⟩
        ∧ analyze_base64_frame m hdr none d a now =
            analyze_base64_frame m hdr none d2 a2 now2 := by
  intro F F2 m hdr d a d2 a2 now now2 k hv
  constructor
  · simp only [analyze_base64_frame, hv]
    rfl
  · simp only [analyze_base64_frame, hv]
    rfl

/-- C7 witness: a concrete authenticated request with no image field. -/
theorem missing_image_field_400_witness :
    analyze_base64_frame (mkKeyManager (some "abc123") none) (some "abc123") none
        (fun _ => Except.ok 0) (fun _ => ⟨none, none, none, none, none, none⟩) 0 =
      .error ⟨400, "Missing \x27image\x27 field in request"⟩ :=
  (missing_image_field_400 Nat Nat (mkKeyManager (some "abc123") none) (some "abc123")
    (fun _ => Except.ok 0) (fun _ => ⟨none, none, none, none, none, none⟩)
    (fun _ => Except.ok 0) (fun _ => ⟨none, none, none, none, none, none⟩)
    0 0 "abc123" rfl).1

/-- C8: whenever the API key header is absent, empty, or rejected by
`validate_key`, both handlers return a 401 error, and the result does not
depend on the payload, the decoder, the analyzer, or the clock — no
decoding or analysis is performed on an unauthenticated request. -/
theorem auth_failure_blocks_processing :
    ∀ (F F2 : Type) (m : KeyManager) (hdr : Option String)
      (bytes bytes2 : List Nat) (img img2 : Option String)
      (d : List Nat → Except String F) (a : F → AnalysisResult)
      (d2 : List Nat → Except String F2) (a2 : F2 → AnalysisResult) (now now2 : ℚ),
      validate_key m hdr = false →
        (∃ detail : String,
          analyze_frame m hdr bytes d a now = .error ⟨401, detail⟩
          ∧ analyze_base64_frame m hdr img d a now = .error ⟨401, detail⟩)
        ∧ analyze_frame m hdr bytes d a now = analyze_frame m hdr bytes2 d2 a2 now2
        ∧ analyze_base64_frame m hdr img d a now =
            analyze_base64_frame m hdr img2 d2 a2 now2 := by
  intro F F2 m hdr bytes bytes2 img img2 d a d2 a2 now now2 hval
  have hv : ∃ detail : String, verify_api_key m hdr = .error ⟨401, detail⟩ := by
    rcases hdr with _ | k
    · exact ⟨"API key required. Please provide X-API-Key header.", rfl⟩
    · by_cases hk : k = ""
      · subst hk
        exact ⟨"API key required. Please provide X-API-Key header.", rfl⟩
      · refine ⟨"Invalid or expired API key.", ?_⟩
        simp [verify_api_key, hk, hval]
  rcases hv with ⟨detail, hvd⟩
  refine ⟨⟨detail, ?_, ?_⟩, ?_, ?_⟩
  · simp [analyze_frame, hvd]
  · simp [analyze_base64_frame, hvd]
  · simp [analyze_frame, hvd]
  · simp [analyze_base64_frame, hvd]

/-- C8 witness: a concrete rejected key blocks both handlers
identically. -/
theorem auth_failure_blocks_processing_witness :
    ∃ detail : String,
      analyze_frame (mkKeyManager (some "abc123") none) (some "xyz") [0]
          (fun _ => Except.ok 0) (fun _ => ⟨none, none, none, none, none, none⟩) 0 =
        .error ⟨401, detail⟩
      ∧ analyze_base64_frame (mkKeyManager (some "abc123") none) (some "xyz") (some "AA==")
          (fun _ => Except.ok 0) (fun _ => ⟨none, none, none, none, none, none⟩) 0 =
        .error ⟨401, detail⟩ :=
  (auth_failure_blocks_processing Nat Nat (mkKeyManager (some "abc123") none) (some "xyz")
    [0] [] (some "AA==") none
    (fun _ => Except.ok 0) (fun _ => ⟨none, none, none, none, none, none⟩)
    (fun _ => Except.ok 0) (fun _ => ⟨none, none, none, none, none, none⟩)
    0 0 (by decide)).1

/-- C2: the response `confidence_status` is `"PASS"` iff the reported
`frame_confidence` is at least `0.3` (with the boundary `0.3` itself a
`"PASS"`) and `"FAIL"` iff it is below, and a successful run of either
endpoint returns exactly the shared built response of the analyzer
result. -/
theorem confidence_status_threshold :
    (∀ (now : ℚ) (r : AnalysisResult),
        ((buildResponse now r).confidence_status = "PASS" ↔
          3 / 10 ≤ r.frame_confidence.getD 0)
      ∧ ((buildResponse now r).confidence_status = "FAIL" ↔
          r.frame_confidence.getD 0 < 3 / 10)
      ∧ (r.frame_confidence = some (3 / 10) →
          (buildResponse now r).confidence_status = "PASS"))
  ∧ (∀ (F : Type) (m : KeyManager) (hdr : Option String) (bytes : List Nat)
        (d : List Nat → Except String F) (a : F → AnalysisResult) (now : ℚ)
        (k : String) (f : F),
        verify_api_key m hdr = .ok k → d bytes = .ok f →
          analyze_frame m hdr bytes d a now = .ok (buildResponse now (a f)))
  ∧ (∀ (F : Type) (m : KeyManager) (hdr : Option String) (s : String)
        (d : List Nat → Except String F) (a : F → AnalysisResult) (now : ℚ)
        (k : String) (f : F),
        verify_api_key m hdr = .ok k → s ≠ "" →
          decode_base64_image d s.data = .ok f →
          analyze_base64_frame m hdr (some s) d a now = .ok (buildResponse now (a f))) := by
  refine ⟨?_, ?_, ?_⟩
  · intro now r
    have hb : (buildResponse now r).confidence_status =
        if 3 / 10 ≤ r.frame_confidence.getD 0 then "PASS" else "FAIL" := rfl
    rw [hb]
    split_ifs with h
    · exact ⟨⟨fun _ => h, fun _ => rfl⟩,
        ⟨fun e => absurd e (by decide), fun hlt => absurd h (not_le.mpr hlt)⟩,
        fun _ => rfl⟩
    · refine ⟨⟨fun e => absurd e (by decide), fun hle => absurd hle h⟩,
        ⟨fun _ => not_le.mp h, fun _ => rfl⟩, fun hsome => ?_⟩
      rw [hsome] at h
      simp at h
  · intro F m hdr bytes d a now k f hv hd
    exact analyze_frame_ok m hdr bytes d a now k f hv hd
  · intro F m hdr s d a now k f hv hs hd
    exact analyze_base64_ok m hdr s d a now k f hv hs hd

/-- C2 witness: at the boundary confidence exactly `0.3` the status is
`"PASS"`. -/
theorem confidence_status_threshold_witness :
    (buildResponse 0 ⟨none, some (3 / 10), none, none, none, none⟩).confidence_status =
      "PASS" :=
  (confidence_status_threshold.1 0 ⟨none, some (3 / 10), none, none, none, none⟩).2.2 rfl

/-- C6: the response builder is total on analyzer results; each of the four
metrics maps to `none` in the response exactly when it is absent from the
metrics mapping (never to `0`, never to an error), present metrics are
rounded to their specified number of decimals (attention 1, head movement
4, shoulder tilt 1, hand activity 4, frame confidence 3), and `roundTo`
really produces a value with the stated precision. -/
theorem buildResponse_missing_metrics_null :
    ∀ (now : ℚ) (r : AnalysisResult),
      ((r.metrics.getD emptyMetrics).attention_percent = none ↔
        (buildResponse now r).attention = none)
    ∧ (∀ v : ℚ, (r.metrics.getD emptyMetrics).attention_percent = some v →
        (buildResponse now r).attention = some (roundTo v 1))
    ∧ ((r.metrics.getD emptyMetrics).head_movement_normalized = none ↔
        (buildResponse now r).head_movement = none)
    ∧ (∀ v : ℚ, (r.metrics.getD emptyMetrics).head_movement_normalized = some v →
        (buildResponse now r).head_movement = some (roundTo v 4))
    ∧ ((r.metrics.getD emptyMetrics).shoulder_tilt_deg = none ↔
        (buildResponse now r).shoulder_tilt = none)
    ∧ (∀ v : ℚ, (r.metrics.getD emptyMetrics).shoulder_tilt_deg = some v →
        (buildResponse now r).shoulder_tilt = some (roundTo v 1))
    ∧ ((r.metrics.getD emptyMetrics).hand_activity_normalized = none ↔
        (buildResponse now r).hand_activity = none)
    ∧ (∀ v : ℚ, (r.metrics.getD emptyMetrics).hand_activity_normalized = some v →
        (buildResponse now r).hand_activity = some (roundTo v 4))
    ∧ (buildResponse now r).frame_confidence = roundTo (r.frame_confidence.getD 0) 3
    ∧ (∀ (q : ℚ) (n : Nat), ∃ z : ℤ, roundTo q n = (z : ℚ) / 10 ^ n) := by
  intro now r
  have ha : (buildResponse now r).attention =
      Option.map (fun v => roundTo v 1) ((r.metrics.getD emptyMetrics).attention_percent) := rfl
  have hh : (buildResponse now r).head_movement =
      Option.map (fun v => roundTo v 4)
        ((r.metrics.getD emptyMetrics).head_movement_normalized) := rfl
  have hs : (buildResponse now r).shoulder_tilt =
      Option.map (fun v => roundTo v 1) ((r.metrics.getD emptyMetrics).shoulder_tilt_deg) := rfl
  have hn : (buildResponse now r).hand_activity =
      Option.map (fun v => roundTo v 4)
        ((r.metrics.getD emptyMetrics).hand_activity_normalized) := rfl
  refine ⟨?_, ?_, ?_, ?_, ?_, ?_, ?_, ?_, rfl, fun q n => ⟨pyRound (q * 10 ^ n), rfl⟩⟩
  · rw [ha]
    exact Option.map_eq_none'.symm
  · intro v hv
    rw [ha, hv]
    rfl
  · rw [hh]
    exact Option.map_eq_none'.symm
  · intro v hv
    rw [hh, hv]
    rfl
  · rw [hs]
    exact Option.map_eq_none'.symm
  · intro v hv
    rw [hs, hv]
    rfl
  · rw [hn]
    exact Option.map_eq_none'.symm
  · intro v hv
    rw [hn, hv]
    rfl

/-- C6 witness: a present attention metric is rounded, an absent one stays
`none`. -/
theorem buildResponse_missing_metrics_null_witness :
    (buildResponse 0 ⟨none, none, some ⟨some 1, none, none, none⟩, none, none, none⟩).attention =
      some (roundTo 1 1)
    ∧ (((⟨none, none, some ⟨some 1, none, none, none⟩, none, none,
          none⟩ : AnalysisResult).metrics.getD emptyMetrics).head_movement_normalized = none ↔
        (buildResponse 0
          ⟨none, none, some ⟨some 1, none, none, none⟩, none, none, none⟩).head_movement =
          none) :=
  ⟨(buildResponse_missing_metrics_null 0
      ⟨none, none, some ⟨some 1, none, none, none⟩, none, none, none⟩).2.1 1 rfl,
   (buildResponse_missing_metrics_null 0
      ⟨none, none, some ⟨some 1, none, none, none⟩, none, none, none⟩).2.2.1⟩

/-- C9: when the analyzer omits `frame_confidence`, the handler substitutes
`0.0`, so the response carries confidence `0` and status `"FAIL"`. -/
theorem missing_confidence_is_zero_fail :
    ∀ (now : ℚ) (r : AnalysisResult), r.frame_confidence = none →
      (buildResponse now r).frame_confidence = 0
      ∧ (buildResponse now r).confidence_status = "FAIL" := by
  intro now r h
  constructor
  · have hc : (buildResponse now r).frame_confidence =
        roundTo (r.frame_confidence.getD 0) 3 := rfl
    rw [hc, h]
    show roundTo 0 3 = 0
    norm_num [roundTo, pyRound]
  · have hb : (buildResponse now r).confidence_status =
        if 3 / 10 ≤ r.frame_confidence.getD 0 then "PASS" else "FAIL" := rfl
    rw [hb, h]
    norm_num

/-- C9 witness: the all-absent analyzer result. -/
theorem missing_confidence_is_zero_fail_witness :
    (buildResponse 0 ⟨none, none, none, none, none, none⟩).frame_confidence = 0
    ∧ (buildResponse 0 ⟨none, none, none, none, none, none⟩).confidence_status = "FAIL" :=
  missing_confidence_is_zero_fail 0 ⟨none, none, none, none, none, none⟩ rfl

/-- C1 (refuting the claim on the file-upload endpoint): with a valid key
and a payload the image parser rejects, `analyze_frame` returns status 500
wrapping the 400 decode failure, because its bare `except Exception`
catches the `HTTPException(400, "Invalid image format: ...")` raised by
`decode_image`; the base64 endpoint, which re-raises `HTTPException`
untouched, returns status 400 for the same parser failure. -/
theorem analyze_frame_decode_error_is_500 :
    analyze_frame (mkKeyManager (some "abc123") none) (some "abc123") [0]
        ((fun _ => Except.error "cannot identify image file") :
          List Nat → Except String Nat)
        (fun _ => ⟨none, none, none, none, none, none⟩) 0
      = .error ⟨500,
          "Error processing frame: 400: Invalid image format: cannot identify image file"⟩
    ∧ analyze_base64_frame (mkKeyManager (some "abc123") none) (some "abc123") (some "AA==")
        ((fun _ => Except.error "cannot identify image file") :
          List Nat → Except String Nat)
        (fun _ => ⟨none, none, none, none, none, none⟩) 0
      = .error ⟨400,
          "Invalid base64 image: 400: Invalid image format: cannot identify image file"⟩ :=
  ⟨rfl, rfl⟩

/-- C3 counterexample: on `"a,b,c"` the code passes the segment `"b"` to
the base64 decoder, not the whole remainder `"b,c"` that the claim
describes. -/
theorem stripDataUrl_not_whole_remainder :
    stripDataUrlComma ("a,b,c".data) ≠ remainderAfterFirstComma ("a,b,c".data)
    ∧ stripDataUrlComma ("a,b,c".data) = "b".data
    ∧ remainderAfterFirstComma ("a,b,c".data) = "b,c".data :=
  ⟨by decide, by decide, by decide⟩

/-- C3 (amended): with a comma present, the segment between the first and
the second comma — equal to the whole remainder when there is no second
comma — is what reaches the base64 decoder; and decoding raw bytes versus
decoding their base64 encoding behind a comma-terminated data-URL marker
yield the same frame. -/
theorem decode_base64_segment_roundtrip :
    (∀ (pre mid post : List Char), ',' ∉ pre → ',' ∉ mid →
        stripDataUrlComma (pre ++ ',' :: (mid ++ ',' :: post)) = mid
      ∧ stripDataUrlComma (pre ++ ',' :: mid) = mid)
  ∧ (∀ (F : Type) (d : List Nat → Except String F) (pre : List Char)
        (bytes : List Nat) (f : F),
      ',' ∉ pre → (∀ b ∈ bytes, b < 256) →
        (decode_base64_image d (pre ++ ',' :: b64encodeBytes bytes) = .ok f ↔
          decode_image d bytes = .ok f)) := by
  constructor
  · intro pre mid post hp hm
    exact ⟨stripDataUrlComma_two_commas pre mid post hp hm,
      stripDataUrlComma_one_comma pre mid hp hm⟩
  · intro F d pre bytes f hp hb
    have hstrip : stripDataUrlComma (pre ++ ',' :: b64encodeBytes bytes) =
        b64encodeBytes bytes :=
      stripDataUrlComma_one_comma pre _ hp (b64encode_no_comma bytes hb)
    have hdec := b64_roundtrip bytes hb
    rcases hdi : decode_image d bytes with e | f2
    · simp [decode_base64_image, hstrip, hdec, hdi]
    · simp [decode_base64_image, hstrip, hdec, hdi]

/-- C3 witness: a two-comma input keeps only the middle segment, and a
concrete data-URL-style round trip agrees with the raw decode. -/
theorem decode_base64_segment_roundtrip_witness :
    stripDataUrlComma ("ab".data ++ ',' :: ("QQ".data ++ ',' :: "zz".data)) = "QQ".data
    ∧ (decode_base64_image (fun bs => Except.ok bs)
          ("data:image/png;base64".data ++ ',' :: b64encodeBytes [0, 1, 2]) = .ok [0, 1, 2] ↔
        decode_image (fun bs => Except.ok bs) [0, 1, 2] = .ok [0, 1, 2]) :=
  ⟨(decode_base64_segment_roundtrip.1 "ab".data "QQ".data "zz".data
      (by decide) (by decide)).1,
   decode_base64_segment_roundtrip.2 (List Nat) (fun bs => Except.ok bs)
     "data:image/png;base64".data [0, 1, 2] [0, 1, 2] (by decide) (by decide)⟩
